import Mathlib

/-!
Shallow embedding of the capture-frame composition and overlay-gesture engine
of the pose-perfect camera app (src/components/CameraView.tsx and src/App.tsx).

Numeric values (pixel coordinates, zoom factors, distances) are modelled as
rationals; the source's JavaScript arithmetic on these quantities is exact
rational arithmetic at every input the theorems below use.
-/

namespace PosePerfect

/-- The three selectable aspect ratios, from `src/types.ts` (`'3:4' | '1:1' | '9:16'`). -/
inductive AspectRatio
  | r3x4
  | r1x1
  | r9x16
deriving DecidableEq, Repr

/-- `ratioW`: first component of `aspectRatio.split(':').map(Number)` in `handleCapture`. -/
def ratioW : AspectRatio → ℚ
  | .r3x4 => 3
  | .r1x1 => 1
  | .r9x16 => 9

/-- `ratioH`: second component of `aspectRatio.split(':').map(Number)` in `handleCapture`. -/
def ratioH : AspectRatio → ℚ
  | .r3x4 => 4
  | .r1x1 => 1
  | .r9x16 => 16

/-- The crop rectangle computed inside `handleCapture`
(`drawWidth`, `drawHeight`, `sx`, `sy`). -/
structure CropRect where
  drawWidth : ℚ
  drawHeight : ℚ
  sx : ℚ
  sy : ℚ
deriving DecidableEq, Repr

/-- The crop computation of `handleCapture` (CameraView.tsx lines 167-181):

    if (videoWidth / videoHeight > ratioW / ratioH) {
      drawHeight = videoHeight;
      drawWidth = videoHeight * (ratioW / ratioH);
      sx = (videoWidth - drawWidth) / 2;
      sy = 0;
    } else {
      drawWidth = videoWidth;
      drawHeight = videoWidth * (ratioH / ratioW);
      sx = 0;
      sy = (videoHeight - drawHeight) / 2;
    }
-/
def computeCrop (videoWidth videoHeight : ℚ) (ar : AspectRatio) : CropRect :=
  if videoWidth / videoHeight > ratioW ar / ratioH ar then
    { drawHeight := videoHeight
      drawWidth := videoHeight * (ratioW ar / ratioH ar)
      sx := (videoWidth - videoHeight * (ratioW ar / ratioH ar)) / 2
      sy := 0 }
  else
    { drawWidth := videoWidth
      drawHeight := videoWidth * (ratioH ar / ratioW ar)
      sx := 0
      sy := (videoHeight - videoWidth * (ratioH ar / ratioW ar)) / 2 }

theorem ratioW_pos (ar : AspectRatio) : 0 < ratioW ar := by
  cases ar <;> norm_num [ratioW]

theorem ratioH_pos (ar : AspectRatio) : 0 < ratioH ar := by
  cases ar <;> norm_num [ratioH]

/-- The inputs `handleCapture` reads, together with the overlay props that are in
scope but unused by it.  `frameContent` abstracts the pixel data of the current
video frame; `refsPresent` models `videoRef.current` and `canvasRef.current`
being non-null, `contextPresent` models `canvas.getContext` succeeding. -/
structure CameraViewState where
  videoWidth : ℚ
  videoHeight : ℚ
  frameContent : ℕ
  aspectRatio : AspectRatio
  isFlipped : Bool
  overlayImage : Option ℕ
  overlayOpacity : ℚ
  overlayZoom : ℚ
  overlayPosition : ℚ × ℚ
  refsPresent : Bool
  contextPresent : Bool
deriving DecidableEq, Repr

/-- The still image handed to `onCapture`: the canvas dimensions (integers:
`canvas.width`/`canvas.height` are IDL `unsigned long` attributes, so the
assignments `canvas.width = drawWidth` and `canvas.height = drawHeight`
truncate the nonnegative fractional crop dimensions toward zero, i.e. floor),
the fractional source rectangle passed to `drawImage` (doubles, untruncated),
the mirror flag applied to the context, the frame pixel data, and the JPEG
quality (0.95). -/
structure StillImage where
  width : ℤ
  height : ℤ
  sx : ℚ
  sy : ℚ
  mirrored : Bool
  source : ℕ
  quality : ℚ
deriving DecidableEq, Repr

/-- `handleCapture` (CameraView.tsx lines 158-198).  Returns `none` exactly when
the function returns without invoking `onCapture` (null refs, or null 2d
context); otherwise `some` of the still image passed to `onCapture`.  The
canvas dimensions are the floor-truncations of the crop dimensions (see
`StillImage`); the function reads neither `overlayImage` nor any overlay
transform prop, and it performs no check on `videoWidth`/`videoHeight`. -/
def handleCapture (s : CameraViewState) : Option StillImage :=
  if s.refsPresent = false then none
  else
    let crop := computeCrop s.videoWidth s.videoHeight s.aspectRatio
    if s.contextPresent = false then none
    else some
      { width := ⌊crop.drawWidth⌋
        height := ⌊crop.drawHeight⌋
        sx := crop.sx
        sy := crop.sy
        mirrored := s.isFlipped
        source := s.frameContent
        quality := 95 / 100 }

/-- For positive frame dimensions and any target ratio, the crop rectangle
follows the claimed branch formulas, its width/height ratio equals the target
ratio, the crop is centered, at least one crop dimension equals the
corresponding source dimension, and when `vw/vh ≠ rw/rh` exactly one does. -/
theorem computeCrop_spec (vw vh : ℚ) (hw : 0 < vw) (hh : 0 < vh) (ar : AspectRatio) :
    ((computeCrop vw vh ar).drawWidth / (computeCrop vw vh ar).drawHeight
        = ratioW ar / ratioH ar) ∧
    (if vw / vh > ratioW ar / ratioH ar then
        (computeCrop vw vh ar).drawHeight = vh ∧
        (computeCrop vw vh ar).drawWidth = vh * (ratioW ar / ratioH ar) ∧
        (computeCrop vw vh ar).sx = (vw - (computeCrop vw vh ar).drawWidth) / 2 ∧
        (computeCrop vw vh ar).sy = 0
      else
        (computeCrop vw vh ar).drawWidth = vw ∧
        (computeCrop vw vh ar).drawHeight = vw * (ratioH ar / ratioW ar) ∧
        (computeCrop vw vh ar).sx = 0 ∧
        (computeCrop vw vh ar).sy = (vh - (computeCrop vw vh ar).drawHeight) / 2) ∧
    ((computeCrop vw vh ar).drawWidth = vw ∨ (computeCrop vw vh ar).drawHeight = vh) ∧
    (vw / vh ≠ ratioW ar / ratioH ar →
      ((computeCrop vw vh ar).drawWidth = vw ∧ (computeCrop vw vh ar).drawHeight ≠ vh) ∨
      ((computeCrop vw vh ar).drawWidth ≠ vw ∧ (computeCrop vw vh ar).drawHeight = vh)) := by
  have hrw := ratioW_pos ar
  have hrh := ratioH_pos ar
  unfold computeCrop
  split_ifs with h
  · have hlt : vh * (ratioW ar / ratioH ar) < vw := by
      have h2 : vh * (ratioW ar / ratioH ar) < vh * (vw / vh) :=
        (mul_lt_mul_left hh).mpr h
      have h3 : vh * (vw / vh) = vw := by
        field_simp
      rw [h3] at h2
      exact h2
    exact ⟨mul_div_cancel_left₀ _ hh.ne', ⟨rfl, rfl, rfl, rfl⟩, Or.inr rfl,
      fun _ => Or.inr ⟨ne_of_lt hlt, rfl⟩⟩
  · refine ⟨?_, ⟨rfl, rfl, rfl, rfl⟩, Or.inl rfl, fun hne => ?_⟩
    · field_simp
      ring
    · have h3 : vw / vh < ratioW ar / ratioH ar := lt_of_le_of_ne (not_lt.mp h) hne
      have h4 : vw * ratioH ar < ratioW ar * vh := (div_lt_div_iff₀ hh hrh).mp h3
      have hlt : vw * (ratioH ar / ratioW ar) < vh := by
        rw [← mul_div_assoc, div_lt_iff₀ hrw, mul_comm vh (ratioW ar)]
        exact h4
      exact Or.inl ⟨rfl, ne_of_lt hlt⟩

/-- C1 (amended): for every ready camera view with positive native dimensions,
`handleCapture` invokes the callback with an image whose canvas dimensions are
the truncations of the crop dimensions — each within 1 of the exact value, and
the exact crop ratio equals the target ratio, so the output ratio equals the
target within rounding; the crop follows the claimed centered branch formulas,
at least one crop dimension equals the corresponding source dimension (exactly
one whenever `vw/vh ≠ rw/rh`), and the frame is never stretched. -/
theorem capture_crop_spec (s : CameraViewState)
    (hr : s.refsPresent = true) (hc : s.contextPresent = true)
    (hw : 0 < s.videoWidth) (hh : 0 < s.videoHeight) :
    ∃ out : StillImage, handleCapture s = some out ∧
      out.width = ⌊(computeCrop s.videoWidth s.videoHeight s.aspectRatio).drawWidth⌋ ∧
      out.height = ⌊(computeCrop s.videoWidth s.videoHeight s.aspectRatio).drawHeight⌋ ∧
      (computeCrop s.videoWidth s.videoHeight s.aspectRatio).drawWidth - 1 < (out.width : ℚ) ∧
      (out.width : ℚ) ≤ (computeCrop s.videoWidth s.videoHeight s.aspectRatio).drawWidth ∧
      (computeCrop s.videoWidth s.videoHeight s.aspectRatio).drawHeight - 1 < (out.height : ℚ) ∧
      (out.height : ℚ) ≤ (computeCrop s.videoWidth s.videoHeight s.aspectRatio).drawHeight ∧
      ((computeCrop s.videoWidth s.videoHeight s.aspectRatio).drawWidth /
          (computeCrop s.videoWidth s.videoHeight s.aspectRatio).drawHeight
        = ratioW s.aspectRatio / ratioH s.aspectRatio) ∧
      (if s.videoWidth / s.videoHeight > ratioW s.aspectRatio / ratioH s.aspectRatio then
          (computeCrop s.videoWidth s.videoHeight s.aspectRatio).drawHeight = s.videoHeight ∧
          (computeCrop s.videoWidth s.videoHeight s.aspectRatio).drawWidth
            = s.videoHeight * (ratioW s.aspectRatio / ratioH s.aspectRatio) ∧
          (computeCrop s.videoWidth s.videoHeight s.aspectRatio).sx
            = (s.videoWidth
                - (computeCrop s.videoWidth s.videoHeight s.aspectRatio).drawWidth) / 2 ∧
          (computeCrop s.videoWidth s.videoHeight s.aspectRatio).sy = 0
        else
          (computeCrop s.videoWidth s.videoHeight s.aspectRatio).drawWidth = s.videoWidth ∧
          (computeCrop s.videoWidth s.videoHeight s.aspectRatio).drawHeight
            = s.videoWidth * (ratioH s.aspectRatio / ratioW s.aspectRatio) ∧
          (computeCrop s.videoWidth s.videoHeight s.aspectRatio).sx = 0 ∧
          (computeCrop s.videoWidth s.videoHeight s.aspectRatio).sy
            = (s.videoHeight
                - (computeCrop s.videoWidth s.videoHeight s.aspectRatio).drawHeight) / 2) ∧
      ((computeCrop s.videoWidth s.videoHeight s.aspectRatio).drawWidth = s.videoWidth ∨
        (computeCrop s.videoWidth s.videoHeight s.aspectRatio).drawHeight = s.videoHeight) ∧
      (s.videoWidth / s.videoHeight ≠ ratioW s.aspectRatio / ratioH s.aspectRatio →
        ((computeCrop s.videoWidth s.videoHeight s.aspectRatio).drawWidth = s.videoWidth ∧
          (computeCrop s.videoWidth s.videoHeight s.aspectRatio).drawHeight ≠ s.videoHeight) ∨
        ((computeCrop s.videoWidth s.videoHeight s.aspectRatio).drawWidth ≠ s.videoWidth ∧
          (computeCrop s.videoWidth s.videoHeight s.aspectRatio).drawHeight
            = s.videoHeight)) := by
  have hcap : handleCapture s = some
      { width := ⌊(computeCrop s.videoWidth s.videoHeight s.aspectRatio).drawWidth⌋
        height := ⌊(computeCrop s.videoWidth s.videoHeight s.aspectRatio).drawHeight⌋
        sx := (computeCrop s.videoWidth s.videoHeight s.aspectRatio).sx
        sy := (computeCrop s.videoWidth s.videoHeight s.aspectRatio).sy
        mirrored := s.isFlipped
        source := s.frameContent
        quality := 95 / 100 } := by
    unfold handleCapture
    rw [hr, hc]
    norm_num
  obtain ⟨hratio, hbranch, hone, hexact⟩ := computeCrop_spec s.videoWidth s.videoHeight hw hh
    s.aspectRatio
  exact ⟨_, hcap, rfl, rfl,
    Int.sub_one_lt_floor _, Int.floor_le _,
    Int.sub_one_lt_floor _, Int.floor_le _,
    hratio, hbranch, hone, hexact⟩

/-- A ready camera view showing a 4×3 frame with target ratio 1:1. -/
def captureState4x3 : CameraViewState :=
  { videoWidth := 4
    videoHeight := 3
    frameContent := 7
    aspectRatio := .r1x1
    isFlipped := false
    overlayImage := none
    overlayOpacity := 3 / 10
    overlayZoom := 1
    overlayPosition := (0, 0)
    refsPresent := true
    contextPresent := true }

/-- C1 witness: the capture crop spec instantiated at a concrete ready view with
a wide 4×3 frame and target ratio 1:1. -/
theorem capture_crop_spec_witness :
    ∃ out : StillImage, handleCapture captureState4x3 = some out ∧
      out.width = ⌊(computeCrop captureState4x3.videoWidth captureState4x3.videoHeight
          captureState4x3.aspectRatio).drawWidth⌋ ∧
      out.height = ⌊(computeCrop captureState4x3.videoWidth captureState4x3.videoHeight
          captureState4x3.aspectRatio).drawHeight⌋ ∧
      (computeCrop captureState4x3.videoWidth captureState4x3.videoHeight
          captureState4x3.aspectRatio).drawWidth - 1 < (out.width : ℚ) ∧
      (out.width : ℚ) ≤ (computeCrop captureState4x3.videoWidth captureState4x3.videoHeight
          captureState4x3.aspectRatio).drawWidth ∧
      (computeCrop captureState4x3.videoWidth captureState4x3.videoHeight
          captureState4x3.aspectRatio).drawHeight - 1 < (out.height : ℚ) ∧
      (out.height : ℚ) ≤ (computeCrop captureState4x3.videoWidth captureState4x3.videoHeight
          captureState4x3.aspectRatio).drawHeight ∧
      ((computeCrop captureState4x3.videoWidth captureState4x3.videoHeight
            captureState4x3.aspectRatio).drawWidth /
          (computeCrop captureState4x3.videoWidth captureState4x3.videoHeight
            captureState4x3.aspectRatio).drawHeight
        = ratioW captureState4x3.aspectRatio / ratioH captureState4x3.aspectRatio) ∧
      (if captureState4x3.videoWidth / captureState4x3.videoHeight
            > ratioW captureState4x3.aspectRatio / ratioH captureState4x3.aspectRatio then
          (computeCrop captureState4x3.videoWidth captureState4x3.videoHeight
              captureState4x3.aspectRatio).drawHeight = captureState4x3.videoHeight ∧
          (computeCrop captureState4x3.videoWidth captureState4x3.videoHeight
              captureState4x3.aspectRatio).drawWidth
            = captureState4x3.videoHeight
                * (ratioW captureState4x3.aspectRatio / ratioH captureState4x3.aspectRatio) ∧
          (computeCrop captureState4x3.videoWidth captureState4x3.videoHeight
              captureState4x3.aspectRatio).sx
            = (captureState4x3.videoWidth
                - (computeCrop captureState4x3.videoWidth captureState4x3.videoHeight
                    captureState4x3.aspectRatio).drawWidth) / 2 ∧
          (computeCrop captureState4x3.videoWidth captureState4x3.videoHeight
              captureState4x3.aspectRatio).sy = 0
        else
          (computeCrop captureState4x3.videoWidth captureState4x3.videoHeight
              captureState4x3.aspectRatio).drawWidth = captureState4x3.videoWidth ∧
          (computeCrop captureState4x3.videoWidth captureState4x3.videoHeight
              captureState4x3.aspectRatio).drawHeight
            = captureState4x3.videoWidth
                * (ratioH captureState4x3.aspectRatio / ratioW captureState4x3.aspectRatio) ∧
          (computeCrop captureState4x3.videoWidth captureState4x3.videoHeight
              captureState4x3.aspectRatio).sx = 0 ∧
          (computeCrop captureState4x3.videoWidth captureState4x3.videoHeight
              captureState4x3.aspectRatio).sy
            = (captureState4x3.videoHeight
                - (computeCrop captureState4x3.videoWidth captureState4x3.videoHeight
                    captureState4x3.aspectRatio).drawHeight) / 2) ∧
      ((computeCrop captureState4x3.videoWidth captureState4x3.videoHeight
            captureState4x3.aspectRatio).drawWidth = captureState4x3.videoWidth ∨
        (computeCrop captureState4x3.videoWidth captureState4x3.videoHeight
            captureState4x3.aspectRatio).drawHeight = captureState4x3.videoHeight) ∧
      (captureState4x3.videoWidth / captureState4x3.videoHeight
            ≠ ratioW captureState4x3.aspectRatio / ratioH captureState4x3.aspectRatio →
        ((computeCrop captureState4x3.videoWidth captureState4x3.videoHeight
              captureState4x3.aspectRatio).drawWidth = captureState4x3.videoWidth ∧
          (computeCrop captureState4x3.videoWidth captureState4x3.videoHeight
              captureState4x3.aspectRatio).drawHeight ≠ captureState4x3.videoHeight) ∨
        ((computeCrop captureState4x3.videoWidth captureState4x3.videoHeight
              captureState4x3.aspectRatio).drawWidth ≠ captureState4x3.videoWidth ∧
          (computeCrop captureState4x3.videoWidth captureState4x3.videoHeight
              captureState4x3.aspectRatio).drawHeight = captureState4x3.videoHeight)) :=
  capture_crop_spec captureState4x3 rfl rfl
    (by norm_num [captureState4x3]) (by norm_num [captureState4x3])

/-- C1 counterexample: at frame 3×4 with target ratio 3:4 both output dimensions
equal the corresponding source dimensions, so it is not the case that exactly
one output dimension equals its source dimension. -/
theorem capture_crop_both_dims_eq_source :
    (computeCrop 3 4 AspectRatio.r3x4).drawWidth = 3 ∧
    (computeCrop 3 4 AspectRatio.r3x4).drawHeight = 4 ∧
    ¬ Xor' ((computeCrop 3 4 AspectRatio.r3x4).drawWidth = 3)
        ((computeCrop 3 4 AspectRatio.r3x4).drawHeight = 4) := by
  refine ⟨by norm_num [computeCrop, ratioW, ratioH], by norm_num [computeCrop, ratioW, ratioH], ?_⟩
  rw [Xor']
  push_neg
  exact ⟨fun _ => by norm_num [computeCrop, ratioW, ratioH],
    fun _ => by norm_num [computeCrop, ratioW, ratioH]⟩

/-- C2: the still image produced by `handleCapture` depends only on the video
frame, the aspect ratio, the mirror flag, and ref/context availability — never
on the overlay image, its opacity, its position, or its zoom. -/
theorem capture_ignores_overlay (s1 s2 : CameraViewState)
    (hvw : s1.videoWidth = s2.videoWidth) (hvh : s1.videoHeight = s2.videoHeight)
    (hfc : s1.frameContent = s2.frameContent) (har : s1.aspectRatio = s2.aspectRatio)
    (hm : s1.isFlipped = s2.isFlipped) (hr : s1.refsPresent = s2.refsPresent)
    (hc : s1.contextPresent = s2.contextPresent) :
    handleCapture s1 = handleCapture s2 := by
  unfold handleCapture
  rw [hvw, hvh, hfc, har, hm, hr, hc]

/-- A ready camera view with no overlay loaded. -/
def captureStateNoOverlay : CameraViewState :=
  { videoWidth := 1920
    videoHeight := 1080
    frameContent := 7
    aspectRatio := .r3x4
    isFlipped := false
    overlayImage := none
    overlayOpacity := 3 / 10
    overlayZoom := 1
    overlayPosition := (0, 0)
    refsPresent := true
    contextPresent := true }

/-- The same camera view with an overlay loaded, repositioned, rescaled, and at
a different opacity. -/
def captureStateWithOverlay : CameraViewState :=
  { captureStateNoOverlay with
    overlayImage := some 42
    overlayOpacity := 8 / 10
    overlayZoom := 2
    overlayPosition := (25, -40) }

/-- C2 witness: capturing the same frame with and without a (moved, rescaled)
overlay yields identical output. -/
theorem capture_ignores_overlay_witness :
    handleCapture captureStateNoOverlay = handleCapture captureStateWithOverlay :=
  capture_ignores_overlay _ _ rfl rfl rfl rfl rfl rfl rfl

/-- A camera view whose video surface has not yet produced a frame
(native dimensions are 0). -/
def unreadyState : CameraViewState :=
  { captureStateNoOverlay with videoWidth := 0, videoHeight := 0 }

/-- C7 counterexample: with native video dimensions 0 (refs and context
available), `handleCapture` still invokes the capture callback — it is not a
silent no-op. -/
theorem capture_zero_dims_invokes_callback :
    (handleCapture unreadyState).isSome = true := by decide

/-- C7 (amended): `handleCapture` performs no readiness check on the video
dimensions; with both native dimensions 0 it runs the crop computation and
invokes the capture callback with a degenerate 0×0 image (and surfaces no
error). -/
theorem capture_zero_dims_spec (s : CameraViewState)
    (hr : s.refsPresent = true) (hc : s.contextPresent = true)
    (hw : s.videoWidth = 0) (hh : s.videoHeight = 0) :
    handleCapture s = some
      { width := 0, height := 0, sx := 0, sy := 0,
        mirrored := s.isFlipped, source := s.frameContent, quality := 95 / 100 } := by
  have hpos : 0 < ratioW s.aspectRatio / ratioH s.aspectRatio :=
    div_pos (ratioW_pos _) (ratioH_pos _)
  unfold handleCapture computeCrop
  rw [hr, hc, hw, hh, zero_div]
  rw [if_neg (by norm_num), if_neg (by norm_num), if_neg (not_lt.mpr hpos.le)]
  norm_num

/-- C7 witness for the amended statement, at a concrete unready state. -/
theorem capture_zero_dims_spec_witness :
    handleCapture unreadyState = some
      { width := 0, height := 0, sx := 0, sy := 0,
        mirrored := false, source := 7, quality := 95 / 100 } :=
  capture_zero_dims_spec unreadyState rfl rfl rfl rfl

/-- The overlay-gesture state of `CameraView`: the props `overlayImage` (here
just its presence), `overlayZoom`, `overlayPosition`, and the local state
`isDragging`, `isZooming`, `dragStart`, `lastTouchDistance`. -/
structure OverlayGestureState where
  overlayLoaded : Bool
  overlayZoom : ℚ
  overlayPosition : ℚ × ℚ
  isDragging : Bool
  isZooming : Bool
  dragStart : ℚ × ℚ
  lastTouchDistance : ℚ
deriving DecidableEq, Repr

/-- The clamp applied to every overlay-zoom mutation:
`Math.max(0.5, Math.min(3, x))`. -/
def clampZoom (x : ℚ) : ℚ := max (1 / 2) (min 3 x)

/-- `handleOverlayMouseDown` (lines 200-208): ignored without an overlay;
otherwise starts dragging with anchor = pointer position − current translation. -/
def handleOverlayMouseDown (x y : ℚ) (s : OverlayGestureState) : OverlayGestureState :=
  if s.overlayLoaded = false then s
  else
    { s with
      isDragging := true
      dragStart := (x - s.overlayPosition.1, y - s.overlayPosition.2) }

/-- The single-touch branch of `handleOverlayTouchStart` (lines 215-223). -/
def handleOverlayTouchStartSingle (x y : ℚ) (s : OverlayGestureState) : OverlayGestureState :=
  if s.overlayLoaded = false then s
  else
    { s with
      isDragging := true
      isZooming := false
      dragStart := (x - s.overlayPosition.1, y - s.overlayPosition.2) }

/-- The two-touch branch of `handleOverlayTouchStart` (lines 224-233); `dist`
is the `Math.hypot` distance between the two contact points, taken as an event
parameter since the gesture logic only ever consumes the computed distance. -/
def handleOverlayTouchStartDouble (dist : ℚ) (s : OverlayGestureState) : OverlayGestureState :=
  if s.overlayLoaded = false then s
  else
    { s with
      isZooming := true
      isDragging := false
      lastTouchDistance := dist }

/-- `handleOverlayMove` (lines 236-242): pure relative tracking while dragging. -/
def handleOverlayMove (x y : ℚ) (s : OverlayGestureState) : OverlayGestureState :=
  if s.isDragging = false then s
  else { s with overlayPosition := (x - s.dragStart.1, y - s.dragStart.2) }

/-- `handleMouseMove` (lines 244-246) simply forwards to `handleOverlayMove`. -/
def handleMouseMove (x y : ℚ) (s : OverlayGestureState) : OverlayGestureState :=
  handleOverlayMove x y s

/-- The single-touch branch of `handleTouchMove` (lines 251-255). -/
def handleTouchMoveSingle (x y : ℚ) (s : OverlayGestureState) : OverlayGestureState :=
  if s.overlayLoaded = false then s
  else if s.isDragging = true ∧ s.isZooming = false then handleOverlayMove x y s
  else s

/-- The two-touch branch of `handleTouchMove` (lines 256-270): incremental
multiplicative zoom against the last recorded distance, clamped to [0.5, 3];
the recorded distance is updated on every step.  `dist` is the `Math.hypot`
distance between the two contact points. -/
def handleTouchMoveDouble (dist : ℚ) (s : OverlayGestureState) : OverlayGestureState :=
  if s.overlayLoaded = false then s
  else if s.isZooming = true then
    if 0 < s.lastTouchDistance then
      { s with
        overlayZoom := clampZoom (s.overlayZoom * (dist / s.lastTouchDistance))
        lastTouchDistance := dist }
    else { s with lastTouchDistance := dist }
  else s

/-- `handleOverlayEnd` (lines 273-277). -/
def handleOverlayEnd (s : OverlayGestureState) : OverlayGestureState :=
  { s with isDragging := false, isZooming := false, lastTouchDistance := 0 }

/-- `handleOverlayWheel` (lines 335-342): a fixed ±0.1 step, −0.1 exactly when
`deltaY > 0`, clamped to [0.5, 3]. -/
def handleOverlayWheel (deltaY : ℚ) (s : OverlayGestureState) : OverlayGestureState :=
  if s.overlayLoaded = false then s
  else
    { s with
      overlayZoom := clampZoom (s.overlayZoom + (if deltaY > 0 then -(1 / 10) else 1 / 10)) }

/-- `resetOverlayTransform` (lines 295-298). -/
def resetOverlayTransform (s : OverlayGestureState) : OverlayGestureState :=
  { s with overlayZoom := 1, overlayPosition := (0, 0) }

/-- The effect of `handleOverlayUpload` (App.tsx lines 22-34) on the overlay
gesture state: a new image is loaded and the transform resets to identity. -/
def uploadOverlayGesture (s : OverlayGestureState) : OverlayGestureState :=
  { s with overlayLoaded := true, overlayZoom := 1, overlayPosition := (0, 0) }

/-- Every overlay-gesture event the component handles. -/
inductive GestureOp
  | mouseDown (x y : ℚ)
  | touchStartSingle (x y : ℚ)
  | touchStartDouble (dist : ℚ)
  | mouseMove (x y : ℚ)
  | touchMoveSingle (x y : ℚ)
  | touchMoveDouble (dist : ℚ)
  | gestureEnd
  | wheel (deltaY : ℚ)
  | reset
  | upload
deriving DecidableEq, Repr

/-- Dispatch of a gesture event to its handler. -/
def applyGestureOp (s : OverlayGestureState) : GestureOp → OverlayGestureState
  | .mouseDown x y => handleOverlayMouseDown x y s
  | .touchStartSingle x y => handleOverlayTouchStartSingle x y s
  | .touchStartDouble dist => handleOverlayTouchStartDouble dist s
  | .mouseMove x y => handleMouseMove x y s
  | .touchMoveSingle x y => handleTouchMoveSingle x y s
  | .touchMoveDouble dist => handleTouchMoveDouble dist s
  | .gestureEnd => handleOverlayEnd s
  | .wheel deltaY => handleOverlayWheel deltaY s
  | .reset => resetOverlayTransform s
  | .upload => uploadOverlayGesture s

/-- The initial state of App.tsx: no overlay, zoom 1, translation (0,0), no
gesture in progress. -/
def initGestureState : OverlayGestureState :=
  { overlayLoaded := false
    overlayZoom := 1
    overlayPosition := (0, 0)
    isDragging := false
    isZooming := false
    dragStart := (0, 0)
    lastTouchDistance := 0 }

theorem clampZoom_mem (x : ℚ) : 1 / 2 ≤ clampZoom x ∧ clampZoom x ≤ 3 :=
  ⟨le_max_left _ _, max_le (by norm_num) (min_le_left _ _)⟩

/-- Every single gesture event preserves the scale bound [0.5, 3]. -/
theorem applyGestureOp_scale_bounds (s : OverlayGestureState) (op : GestureOp)
    (h : 1 / 2 ≤ s.overlayZoom ∧ s.overlayZoom ≤ 3) :
    1 / 2 ≤ (applyGestureOp s op).overlayZoom ∧ (applyGestureOp s op).overlayZoom ≤ 3 := by
  cases op <;>
    simp only [applyGestureOp, handleOverlayMouseDown, handleOverlayTouchStartSingle,
      handleOverlayTouchStartDouble, handleMouseMove, handleOverlayMove, handleTouchMoveSingle,
      handleTouchMoveDouble, handleOverlayEnd, handleOverlayWheel, resetOverlayTransform,
      uploadOverlayGesture]
  all_goals
    first
      | exact h
      | (split_ifs <;> first | exact h | exact clampZoom_mem _)
      | (constructor <;> norm_num)

theorem clampZoom_step_eq_min (z : ℚ) (hz : 1 / 2 ≤ z) :
    clampZoom (z + 1 / 10) = min 3 (z + 1 / 10) :=
  max_eq_right (le_min (by norm_num) (by linarith))

theorem min3_shift (a c : ℚ) (hc : 0 ≤ c) : min 3 (min 3 a + c) = min 3 (a + c) := by
  rcases le_total a 3 with h | h
  · rw [min_eq_right h]
  · rw [min_eq_left h, min_eq_left (by linarith), min_eq_left (by linarith)]

/-- `n` consecutive wheel zoom-in ticks (negative `deltaY`) on a loaded overlay
saturate the scale at `min 3 (scale + n/10)`. -/
theorem wheel_zoom_in_fold (n : ℕ) (s : OverlayGestureState) (hov : s.overlayLoaded = true)
    (h1 : 1 / 2 ≤ s.overlayZoom) (h3 : s.overlayZoom ≤ 3) :
    ((List.replicate n (GestureOp.wheel (-1))).foldl applyGestureOp s).overlayZoom
      = min 3 (s.overlayZoom + n / 10) := by
  induction n generalizing s with
  | zero => simpa using (min_eq_right h3).symm
  | succ k ih =>
      have hstep : applyGestureOp s (.wheel (-1)) =
          { s with overlayZoom := clampZoom (s.overlayZoom + 1 / 10) } := by
        norm_num [applyGestureOp, handleOverlayWheel, hov]
      rw [List.replicate_succ, List.foldl_cons, hstep,
        ih { s with overlayZoom := clampZoom (s.overlayZoom + 1 / 10) } hov
          (clampZoom_mem _).1 (clampZoom_mem _).2]
      dsimp only
      rw [clampZoom_step_eq_min _ h1, min3_shift _ _ (by positivity)]
      congr 1
      push_cast
      ring

/-- C3: starting from the initial scale 1, after every finite sequence of
gesture events (pinch, drag, wheel, reset, upload, releases) the overlay scale
lies in [0.5, 3]; moreover 50 consecutive wheel zoom-in ticks after an upload
saturate the scale at exactly 3. -/
theorem overlay_scale_always_clamped :
    (∀ ops : List GestureOp,
      1 / 2 ≤ (ops.foldl applyGestureOp initGestureState).overlayZoom ∧
        (ops.foldl applyGestureOp initGestureState).overlayZoom ≤ 3) ∧
    ((GestureOp.upload :: List.replicate 50 (GestureOp.wheel (-1))).foldl
        applyGestureOp initGestureState).overlayZoom = 3 := by
  constructor
  · have main : ∀ (ops : List GestureOp) (s : OverlayGestureState),
        1 / 2 ≤ s.overlayZoom ∧ s.overlayZoom ≤ 3 →
        1 / 2 ≤ (ops.foldl applyGestureOp s).overlayZoom ∧
          (ops.foldl applyGestureOp s).overlayZoom ≤ 3 := by
      intro ops
      induction ops with
      | nil => exact fun s h => h
      | cons op rest ih => exact fun s h => ih _ (applyGestureOp_scale_bounds s op h)
    exact fun ops => main ops initGestureState (by norm_num [initGestureState])
  · rw [List.foldl_cons,
      wheel_zoom_in_fold 50 (applyGestureOp initGestureState GestureOp.upload) rfl
        (by norm_num [applyGestureOp, uploadOverlayGesture, initGestureState])
        (by norm_num [applyGestureOp, uploadOverlayGesture, initGestureState])]
    norm_num [applyGestureOp, uploadOverlayGesture, initGestureState, min_def]

/-- A state in the middle of a pinch: overlay loaded, zooming, last recorded
inter-point distance 100, scale 1. -/
def pinchState : OverlayGestureState :=
  { overlayLoaded := true
    overlayZoom := 1
    overlayPosition := (0, 0)
    isDragging := false
    isZooming := true
    dragStart := (0, 0)
    lastTouchDistance := 100 }

/-- C4: while pinching with a positive recorded distance, a two-touch move to
distance `d` multiplies the scale by `d / lastRecordedDistance` (clamped to
[0.5, 3]) and records `d` as the new distance. -/
theorem pinch_move_incremental (s : OverlayGestureState) (d : ℚ)
    (hov : s.overlayLoaded = true) (hz : s.isZooming = true)
    (hd : 0 < s.lastTouchDistance) :
    applyGestureOp s (.touchMoveDouble d) =
      { s with
        overlayZoom := clampZoom (s.overlayZoom * (d / s.lastTouchDistance))
        lastTouchDistance := d } := by
  simp [applyGestureOp, handleTouchMoveDouble, hov, hz, hd]

/-- C4 witness: from scale 1 and recorded distance 100, moving to distance 150
gives scale 1.5; then moving to distance 120 gives scale 1.2 (incremental,
not ratio-to-initial). -/
theorem pinch_move_incremental_witness :
    applyGestureOp pinchState (GestureOp.touchMoveDouble 150) =
      { pinchState with
        overlayZoom := clampZoom (pinchState.overlayZoom * (150 / pinchState.lastTouchDistance))
        lastTouchDistance := 150 } ∧
    (applyGestureOp pinchState (GestureOp.touchMoveDouble 150)).overlayZoom = 3 / 2 ∧
    (applyGestureOp (applyGestureOp pinchState (GestureOp.touchMoveDouble 150))
        (GestureOp.touchMoveDouble 120)).overlayZoom = 6 / 5 :=
  ⟨pinch_move_incremental pinchState 150 rfl rfl (by norm_num [pinchState]),
    by norm_num [applyGestureOp, handleTouchMoveDouble, pinchState, clampZoom, min_def, max_def],
    by norm_num [applyGestureOp, handleTouchMoveDouble, pinchState, clampZoom, min_def, max_def]⟩

/-- Folding drag moves: while dragging, every intermediate move is overwritten
by the next, and the final translation is the last position minus the anchor. -/
theorem drag_foldl_last_minus_anchor (ms : List (ℚ × ℚ)) (qx qy : ℚ)
    (t : OverlayGestureState) (hd : t.isDragging = true) :
    ((ms ++ [(qx, qy)]).foldl (fun u m => applyGestureOp u (.mouseMove m.1 m.2))
        t).overlayPosition
      = (qx - t.dragStart.1, qy - t.dragStart.2) := by
  induction ms generalizing t with
  | nil => simp [applyGestureOp, handleMouseMove, handleOverlayMove, hd]
  | cons m rest ih =>
      have hpre : (applyGestureOp t (.mouseMove m.1 m.2)).isDragging = true := by
        simp [applyGestureOp, handleMouseMove, handleOverlayMove, hd]
      have hds : (applyGestureOp t (.mouseMove m.1 m.2)).dragStart = t.dragStart := by
        simp [applyGestureOp, handleMouseMove, handleOverlayMove, hd]
      simp only [List.cons_append, List.foldl_cons]
      rw [ih _ hpre, hds]

/-- C5: with an overlay loaded, a press at `(px, py)` sets the anchor to the
press position minus the current translation, and after any sequence of moves
ending at `(qx, qy)` (no intervening release) the translation is the final
position minus that anchor — no drift from intermediate moves. -/
theorem drag_relative_tracking (s : OverlayGestureState) (hov : s.overlayLoaded = true)
    (px py qx qy : ℚ) (moves : List (ℚ × ℚ)) :
    (applyGestureOp s (.mouseDown px py)).dragStart
      = (px - s.overlayPosition.1, py - s.overlayPosition.2) ∧
    ((moves ++ [(qx, qy)]).foldl (fun u m => applyGestureOp u (.mouseMove m.1 m.2))
        (applyGestureOp s (.mouseDown px py))).overlayPosition
      = (qx - (px - s.overlayPosition.1), qy - (py - s.overlayPosition.2)) := by
  have hdown : applyGestureOp s (.mouseDown px py) =
      { s with
        isDragging := true
        dragStart := (px - s.overlayPosition.1, py - s.overlayPosition.2) } := by
    simp [applyGestureOp, handleOverlayMouseDown, hov]
  refine ⟨by rw [hdown], ?_⟩
  rw [drag_foldl_last_minus_anchor moves qx qy _ (by rw [hdown]), hdown]

/-- A loaded overlay at the identity transform, no gesture in progress. -/
def overlayReadyState : OverlayGestureState :=
  { initGestureState with overlayLoaded := true }

/-- C5 witness: press at (100,100) with translation (0,0), an intermediate move
to (120,130), then a move to (140,160): the translation is (40,60). -/
theorem drag_relative_tracking_witness :
    ((applyGestureOp overlayReadyState (GestureOp.mouseDown 100 100)).dragStart
      = (100 - overlayReadyState.overlayPosition.1, 100 - overlayReadyState.overlayPosition.2) ∧
    (([((120 : ℚ), (130 : ℚ))] ++ [((140 : ℚ), (160 : ℚ))]).foldl
        (fun u m => applyGestureOp u (.mouseMove m.1 m.2))
        (applyGestureOp overlayReadyState (GestureOp.mouseDown 100 100))).overlayPosition
      = (140 - (100 - overlayReadyState.overlayPosition.1),
         160 - (100 - overlayReadyState.overlayPosition.2))) ∧
    (([((120 : ℚ), (130 : ℚ))] ++ [((140 : ℚ), (160 : ℚ))]).foldl
        (fun u m => applyGestureOp u (.mouseMove m.1 m.2))
        (applyGestureOp overlayReadyState (GestureOp.mouseDown 100 100))).overlayPosition
      = (40, 60) :=
  ⟨drag_relative_tracking overlayReadyState rfl 100 100 140 160 [(120, 130)],
    by norm_num [applyGestureOp, handleOverlayMouseDown, handleMouseMove, handleOverlayMove,
      overlayReadyState, initGestureState]⟩

/-- C10: with an overlay loaded, a wheel event adjusts the scale by −0.1 exactly
when `deltaY > 0` and by +0.1 otherwise (clamped to [0.5, 3]); in particular
`deltaY = 0` takes the +0.1 branch. -/
theorem wheel_step_sign (s : OverlayGestureState) (dy : ℚ) (hov : s.overlayLoaded = true) :
    (0 < dy → (applyGestureOp s (.wheel dy)).overlayZoom
        = clampZoom (s.overlayZoom - 1 / 10)) ∧
    (¬ 0 < dy → (applyGestureOp s (.wheel dy)).overlayZoom
        = clampZoom (s.overlayZoom + 1 / 10)) := by
  constructor
  · intro hdy
    simp [applyGestureOp, handleOverlayWheel, hov, hdy, sub_eq_add_neg]
  · intro hdy
    simp [applyGestureOp, handleOverlayWheel, hov, hdy]

/-- C10 witness: a wheel event with `deltaY = 0` on a loaded overlay at scale 1
raises the scale to 1.1 — it does not leave it unchanged. -/
theorem wheel_step_sign_witness :
    (applyGestureOp overlayReadyState (GestureOp.wheel 0)).overlayZoom
        = clampZoom (overlayReadyState.overlayZoom + 1 / 10) ∧
    (applyGestureOp overlayReadyState (GestureOp.wheel 0)).overlayZoom = 11 / 10 :=
  ⟨(wheel_step_sign overlayReadyState 0 rfl).2 (by norm_num),
    by norm_num [applyGestureOp, handleOverlayWheel, overlayReadyState, initGestureState,
      clampZoom, min_def, max_def]⟩

/-- The countdown/timer state of `CameraView` together with the scheduler
resources the handlers create: `intervalAlive` is whether the `setInterval`
created by `startCountdown` is still running (its handle is local to
`startCountdown` and is cleared only inside the tick itself),
`pendingCaptures` counts `setTimeout(handleCapture, 100)` callbacks scheduled
but not yet fired, and `captures` counts `handleCapture` invocations. -/
structure CountdownState where
  countdownActive : Bool
  countdown : ℕ
  intervalAlive : Bool
  pendingCaptures : ℕ
  captures : ℕ
deriving DecidableEq, Repr

/-- The countdown events: `start` is `startCountdown` with the configured
`timerSeconds`; `intervalTick` is one firing of the `setInterval` callback;
`timeoutFire` is one scheduled grace-delay `setTimeout` running `handleCapture`;
`cancel` is `cancelCountdown`. -/
inductive CountdownEvent
  | start (timerSeconds : ℕ)
  | intervalTick
  | timeoutFire
  | cancel
deriving DecidableEq, Repr

/-- One step of the countdown system, from CameraView.tsx lines 300-326:

* `startCountdown`: with `timerSeconds === 0` it calls `handleCapture()` and
  returns; otherwise it activates the countdown at `timerSeconds` and starts
  the interval.
* the interval tick: `setCountdown(prev => ...)` — when `prev <= 1` it clears
  the interval, deactivates the countdown, schedules `handleCapture` after a
  short grace delay, and returns 0; otherwise it returns `prev - 1`.
* `cancelCountdown`: sets `countdownActive` to `false` and `countdown` to 0,
  and does nothing else — in particular it cannot clear the interval, whose
  handle is a variable local to `startCountdown`. -/
def stepCountdown (s : CountdownState) : CountdownEvent → CountdownState
  | .start n =>
      if n = 0 then { s with captures := s.captures + 1 }
      else { s with countdownActive := true, countdown := n, intervalAlive := true }
  | .intervalTick =>
      if s.intervalAlive = true then
        if s.countdown ≤ 1 then
          { s with
            intervalAlive := false
            countdownActive := false
            countdown := 0
            pendingCaptures := s.pendingCaptures + 1 }
        else { s with countdown := s.countdown - 1 }
      else s
  | .timeoutFire =>
      if 0 < s.pendingCaptures then
        { s with pendingCaptures := s.pendingCaptures - 1, captures := s.captures + 1 }
      else s
  | .cancel => { s with countdownActive := false, countdown := 0 }

/-- The countdown state on mount: inactive, no interval, nothing scheduled. -/
def initCountdownState : CountdownState :=
  { countdownActive := false
    countdown := 0
    intervalAlive := false
    pendingCaptures := 0
    captures := 0 }

/-- Run a sequence of countdown events from the initial state. -/
def runCountdown (events : List CountdownEvent) : CountdownState :=
  events.foldl stepCountdown initCountdownState

/-- C6 (code bug): start a countdown with timer 3; after one tick the display
reads 2 and the countdown is active; cancelling there fires no capture yet —
but `cancelCountdown` cannot clear the interval (its handle is local to
`startCountdown`), so the interval survives, its next tick sees `countdown ≤ 1`
and schedules the grace-delay capture, and exactly one capture occurs from the
cancelled countdown instead of zero. -/
theorem cancel_countdown_still_captures :
    (runCountdown [.start 3, .intervalTick]).countdown = 2 ∧
    (runCountdown [.start 3, .intervalTick]).countdownActive = true ∧
    (runCountdown [.start 3, .intervalTick, .cancel]).captures = 0 ∧
    (runCountdown [.start 3, .intervalTick, .cancel]).intervalAlive = true ∧
    (runCountdown [.start 3, .intervalTick, .cancel, .intervalTick,
        .timeoutFire]).captures = 1 := by
  decide

/-- Facing mode, `'user' | 'environment'` in the source. -/
inductive FacingMode
  | user
  | environment
deriving DecidableEq, Repr

/-- The top-level App.tsx state (its `useState` fields, App.tsx lines 8-20).
`overlayImage` and `capturedImage` abstract the data-URL strings as numbers. -/
structure AppState where
  overlayImage : Option ℕ
  overlayOpacity : ℚ
  overlayZoom : ℚ
  overlayPosition : ℚ × ℚ
  showGrid : Bool
  aspectRatio : AspectRatio
  zoom : ℚ
  facingMode : FacingMode
  flashEnabled : Bool
  isFlipped : Bool
  portraitMode : Bool
  timerSeconds : ℕ
  capturedImage : Option ℕ
deriving DecidableEq, Repr

/-- `handleOverlayUpload` (App.tsx lines 22-34), once the file reader delivers
the decoded image `img`: store the new overlay image and reset the overlay
transformations (zoom to 1, position to (0,0)). -/
def handleOverlayUpload (img : ℕ) (s : AppState) : AppState :=
  { s with overlayImage := some img, overlayZoom := 1, overlayPosition := (0, 0) }

/-- `handleSwitchCamera` (App.tsx lines 36-39): toggle the facing mode and
reset the camera zoom to 1. -/
def handleSwitchCamera (s : AppState) : AppState :=
  { s with
    facingMode := if s.facingMode = .user then .environment else .user
    zoom := 1 }

/-- C8: uploading a new overlay image resets the overlay transform to identity
(translation (0,0), scale 1) from every prior transform state with scale in
[0.5, 3], and stores the new image. -/
theorem upload_resets_transform (s : AppState) (img : ℕ)
    (h1 : 1 / 2 ≤ s.overlayZoom) (h2 : s.overlayZoom ≤ 3) :
    (handleOverlayUpload img s).overlayZoom = 1 ∧
    (handleOverlayUpload img s).overlayPosition = (0, 0) ∧
    (handleOverlayUpload img s).overlayImage = some img :=
  ⟨rfl, rfl, rfl⟩

/-- An App state with a previously positioned and rescaled overlay. -/
def appStateMovedOverlay : AppState :=
  { overlayImage := some 5
    overlayOpacity := 3 / 10
    overlayZoom := 5 / 2
    overlayPosition := (33, -7)
    showGrid := false
    aspectRatio := .r3x4
    zoom := 1
    facingMode := .environment
    flashEnabled := false
    isFlipped := false
    portraitMode := false
    timerSeconds := 0
    capturedImage := none }

/-- C8 witness: uploading over a scale-2.5, translation (33,−7) overlay yields
the identity transform. -/
theorem upload_resets_transform_witness :
    (handleOverlayUpload 9 appStateMovedOverlay).overlayZoom = 1 ∧
    (handleOverlayUpload 9 appStateMovedOverlay).overlayPosition = (0, 0) ∧
    (handleOverlayUpload 9 appStateMovedOverlay).overlayImage = some 9 :=
  upload_resets_transform appStateMovedOverlay 9 (by norm_num [appStateMovedOverlay])
    (by norm_num [appStateMovedOverlay])

/-- C9: switching the camera toggles the facing mode between user and
environment (it never stays the same) and resets the camera zoom level to
exactly 1, whatever it was before. -/
theorem switch_camera_toggles_resets_zoom (s : AppState) :
    (handleSwitchCamera s).facingMode
      = (if s.facingMode = FacingMode.user then FacingMode.environment else FacingMode.user) ∧
    (handleSwitchCamera s).facingMode ≠ s.facingMode ∧
    (handleSwitchCamera s).zoom = 1 := by
  refine ⟨rfl, ?_, rfl⟩
  rcases hfm : s.facingMode <;> simp [handleSwitchCamera, hfm]

end PosePerfect
